import Mathlib

/-!
Verification development for the ascii-shooter game core (src/js/main.js).

The JavaScript entity/combat core is shallowly embedded in Lean: numeric
values (pixel coordinates, milliseconds, health points) are modelled as `ℚ`
where the relevant code is pure arithmetic with decidable comparisons, and as
`ℝ` where the code calls `Math.sqrt` (collision distance, homing, explosion
radii).  Side effects (pushing explosion/impact effects, score updates, drop
rolls, UI writes) are modelled by explicit counters or returned lists, and
mutation is modelled by state-passing: each method of the source becomes a
function from the old record to the new record together with its outputs.
-/

namespace AsciiShooter

/-! ## Weapon subsystem (classes `Weapon`, `SniperLaser`, `VulcanCannon`,
`RocketLauncher`, main.js lines 514-647) -/

/-- Owner tag of a projectile (`config.owner`, either `'player'` or `'enemy'`). -/
inductive Owner
  | player
  | enemy
  deriving DecidableEq, Repr

/-- Fields of the `Projectile` constructor that the simulation reads
(`char`/`color` are cosmetic and omitted).  `vy` defaults to `-speed`
(upward) when no explicit velocity is given, exactly as in the constructor. -/
structure Projectile where
  x : ℚ
  y : ℚ
  vx : ℚ
  vy : ℚ
  damage : ℚ
  hitboxRadius : ℚ
  owner : Owner
  deriving DecidableEq, Repr

/-- Mutable state of the base `Weapon` class: `fireRate` (ms between shots)
and `lastFireTime` (ms timestamp of the last successful shot). -/
structure Weapon where
  fireRate : ℚ
  lastFireTime : ℚ
  deriving DecidableEq, Repr

/-- `Weapon.canFire(currentTime)`:
`return (currentTime - this.lastFireTime) >= this.fireRate`. -/
def Weapon.canFire (w : Weapon) (currentTime : ℚ) : Prop :=
  (currentTime - w.lastFireTime) ≥ w.fireRate

instance (w : Weapon) (currentTime : ℚ) : Decidable (w.canFire currentTime) :=
  inferInstanceAs (Decidable (_ ≥ _))

/-- `Weapon.fire(x, y, currentTime)`: returns `[]` without touching state when
`canFire` fails, otherwise stamps `lastFireTime = currentTime` and delegates to
the subclass `createProjectiles`.  The subclass override is passed in as
`create` (class dispatch made explicit). -/
def Weapon.fire (w : Weapon) (create : ℚ → ℚ → List Projectile) (x y currentTime : ℚ) :
    Weapon × List Projectile :=
  if ¬ w.canFire currentTime then (w, [])
  else ({ w with lastFireTime := currentTime }, create x y)

/-- `SniperLaser` constructor state: `fireRate: 350`. -/
def sniperLaser : Weapon := { fireRate := 350, lastFireTime := 0 }

/-- `SniperLaser.createProjectiles`: one projectile at `(x, y - 10)` with
`speed: 1600` (so `vy = -1600`), `damage: 15`, `hitboxRadius: 3`,
`owner: 'player'`.  (It also pushes a muzzle-flash effect and plays a sound.) -/
def sniperCreateProjectiles (x y : ℚ) : List Projectile :=
  [{ x := x, y := y - 10, vx := 0, vy := -1600, damage := 15,
     hitboxRadius := 3, owner := .player }]

/-- `VulcanCannon` constructor state: `fireRate: 80`. -/
def vulcanCannon : Weapon := { fireRate := 80, lastFireTime := 0 }

/-- `VulcanCannon.createProjectiles`: one projectile at
`(x + spreadOffset, y - 10)` where
`spreadOffset = (Math.random() - 0.5) * spread * 2` with `spread = 5`;
the random roll (in `[0,1)`) is passed in explicitly as `rand`.
`speed: 900`, `damage: 5`, `hitboxRadius: 2`, `owner: 'player'`. -/
def vulcanCreateProjectiles (rand : ℚ) (x y : ℚ) : List Projectile :=
  [{ x := x + (rand - 1/2) * 5 * 2, y := y - 10, vx := 0, vy := -900, damage := 5,
     hitboxRadius := 2, owner := .player }]

/-- `RocketLauncher` state: the inherited `Weapon` state (`fireRate: 500`)
plus the ammo pool (`ammo = 10`, `maxAmmo = 10`). -/
structure RocketLauncher where
  base : Weapon
  ammo : ℤ
  maxAmmo : ℤ
  deriving DecidableEq, Repr

/-- Freshly constructed `RocketLauncher`. -/
def rocketLauncherInit : RocketLauncher :=
  { base := { fireRate := 500, lastFireTime := 0 }, ammo := 10, maxAmmo := 10 }

/-- `RocketLauncher.canFire`: `super.canFire(currentTime) && this.ammo > 0`. -/
def RocketLauncher.canFire (r : RocketLauncher) (currentTime : ℚ) : Prop :=
  r.base.canFire currentTime ∧ r.ammo > 0

instance (r : RocketLauncher) (currentTime : ℚ) :
    Decidable (r.canFire currentTime) :=
  inferInstanceAs (Decidable (_ ∧ _))

/-- `RocketLauncher.createProjectiles`: one `Rocket` at `(x, y - 10)` with
`speed: 400` (so `vy = -400`), `damage: 50`, `hitboxRadius: 5`,
`owner: 'player'`.  The rocket-specific motion fields (`age`,
`homingStrength`, ...) live in the `Rocket` model further below; here only
the projectile-count/ownership facet matters. -/
def rocketCreateProjectiles (x y : ℚ) : List Projectile :=
  [{ x := x, y := y - 10, vx := 0, vy := -400, damage := 50,
     hitboxRadius := 5, owner := .player }]

/-- `RocketLauncher.fire`: runs the inherited `Weapon.fire` body — whose
`this.canFire` call dispatches to the *overridden* `RocketLauncher.canFire`
(ammo check included) — and then decrements `ammo` iff projectiles were
produced. -/
def RocketLauncher.fire (r : RocketLauncher) (x y currentTime : ℚ) :
    RocketLauncher × List Projectile :=
  let fired :=
    if ¬ r.canFire currentTime then (r, [])
    else ({ r with base := { r.base with lastFireTime := currentTime } },
          rocketCreateProjectiles x y)
  if fired.2.length > 0 then ({ fired.1 with ammo := fired.1.ammo - 1 }, fired.2)
  else fired

/-! ## Player state and damage (class `Player`, main.js lines 1259-1477) -/

/-- State of the `Player` the combat code reads and writes.  `dieCount`
instruments the number of `die()` invocations (each of which also pushes a
large-explosion effect and updates the lives UI).  Cosmetic fields (`art`,
`color`) are omitted. -/
structure Player where
  x : ℚ
  y : ℚ
  vx : ℚ
  vy : ℚ
  health : ℚ
  maxHealth : ℚ
  lives : ℤ
  invulnerable : Bool
  invulnerabilityTimer : ℚ
  invulnerabilityDuration : ℚ
  rocketLauncher : RocketLauncher
  active : Bool
  gameOver : Bool
  dieCount : ℕ
  thrustFrame : ℕ
  thrustTimer : ℚ
  deriving DecidableEq, Repr

/-- The `Player` constructor: `health = maxHealth = 100`, `lives = 3`,
not invulnerable, `invulnerabilityDuration = 3000` ms, positioned at the
given coordinates. -/
def playerInit (x y : ℚ) : Player :=
  { x := x, y := y, vx := 0, vy := 0, health := 100, maxHealth := 100,
    lives := 3, invulnerable := false, invulnerabilityTimer := 0,
    invulnerabilityDuration := 3000, rocketLauncher := rocketLauncherInit,
    active := true, gameOver := false, dieCount := 0,
    thrustFrame := 0, thrustTimer := 0 }

/-- `Player.die()`: pushes a large explosion (counted in `dieCount`),
decrements `lives`; if lives remain it schedules `respawn()` via a 1-second
`setTimeout` (the deferred respawn is *not* part of this call), otherwise it
calls `destroy()` and sets `game.gameOver`. -/
def Player.die (p : Player) : Player :=
  let p := { p with lives := p.lives - 1, dieCount := p.dieCount + 1 }
  if p.lives > 0 then p
  else { p with active := false, gameOver := true }

/-- `Player.takeDamage(amount)`: returns unchanged while invulnerable;
otherwise subtracts, clamps at zero and calls `die()` when the result is
`<= 0`. -/
def Player.takeDamage (p : Player) (amount : ℚ) : Player :=
  if p.invulnerable then p
  else
    let h := p.health - amount
    if h ≤ 0 then Player.die { p with health := 0 }
    else { p with health := h }

/-- Playfield clamp bounds from `CONFIG.player.bounds`. -/
def boundsLeft : ℚ := 20
/-- Right clamp bound. -/
def boundsRight : ℚ := 780
/-- Top clamp bound. -/
def boundsTop : ℚ := 50
/-- Bottom clamp bound. -/
def boundsBottom : ℚ := 550

/-- `Player.update(deltaTime)` (`deltaTime` in seconds): advances the
invulnerability timer (ms) and switches invulnerability off once the timer
reaches `invulnerabilityDuration`; integrates velocity; clamps the position
to the playfield bounds; advances the thrust animation; and decays the
velocity by the factor `0.85`. -/
def Player.update (p : Player) (deltaTime : ℚ) : Player :=
  let p :=
    if p.invulnerable then
      let timer := p.invulnerabilityTimer + deltaTime * 1000
      if timer ≥ p.invulnerabilityDuration then
        { p with invulnerable := false, invulnerabilityTimer := 0 }
      else { p with invulnerabilityTimer := timer }
    else p
  let p := { p with x := p.x + p.vx * deltaTime, y := p.y + p.vy * deltaTime }
  let p := { p with x := max boundsLeft (min boundsRight p.x),
                    y := max boundsTop (min boundsBottom p.y) }
  let p :=
    let t := p.thrustTimer + deltaTime * 1000
    if t ≥ 100 then { p with thrustFrame := (p.thrustFrame + 1) % 2, thrustTimer := 0 }
    else { p with thrustTimer := t }
  { p with vx := p.vx * (85/100), vy := p.vy * (85/100) }

/-! ## Enemy damage handling (class `Enemy`, main.js lines 1571-1603) -/

/-- Health/death state of an `Enemy`.  `onDeathCount` instruments the number
of `onDeath()` invocations; each invocation adds `scoreValue` to the score,
pushes a small-explosion effect and performs a drop-table roll. -/
structure Enemy where
  health : ℚ
  maxHealth : ℚ
  scoreValue : ℚ
  active : Bool
  onDeathCount : ℕ
  deriving DecidableEq, Repr

/-- `Enemy.takeDamage(amount)`:
`this.health -= amount; if (this.health <= 0) { this.health = 0;
this.onDeath(); this.destroy(); }`.  There is no guard against the enemy
being already inactive or at zero health. -/
def Enemy.takeDamage (e : Enemy) (amount : ℚ) : Enemy :=
  let h := e.health - amount
  if h ≤ 0 then
    { e with health := 0, onDeathCount := e.onDeathCount + 1, active := false }
  else { e with health := h }

/-! ## Power-ups (class `PowerUp`, main.js lines 869-945) -/

/-- The `type` tag of a `PowerUp` (`'health'`, `'health_large'`,
`'rocket_ammo'`, or anything else which renders as `'?'`). -/
inductive PowerUpType
  | health
  | healthLarge
  | rocketAmmo
  | other
  deriving DecidableEq, Repr

/-- State of a `PowerUp`: type tag, position, the type-dependent
`healAmount`/`ammoAmount` set by the constructor switch, and the active
flag. -/
structure PowerUp where
  ptype : PowerUpType
  x : ℚ
  y : ℚ
  healAmount : ℚ
  ammoAmount : ℤ
  active : Bool
  deriving DecidableEq, Repr

/-- The `PowerUp` constructor: `healAmount = 25` for `'health'`, `50` for
`'health_large'`, `ammoAmount = 5` for `'rocket_ammo'` (fields that the
constructor leaves unset are modelled as `0`; `collect` never reads them for
those types). -/
def powerUpInit (x y : ℚ) (t : PowerUpType) : PowerUp :=
  { ptype := t, x := x, y := y, active := true,
    healAmount := (match t with
      | .health => 25
      | .healthLarge => 50
      | _ => 0),
    ammoAmount := (match t with
      | .rocketAmmo => 5
      | _ => 0) }

/-- `PowerUp.collect(player)`: for health types,
`player.health = Math.min(player.maxHealth, player.health + this.healAmount)`;
for rocket ammo,
`ammo = Math.min(maxAmmo, ammo + this.ammoAmount)`; in every case the
power-up then calls `this.destroy()`. -/
def PowerUp.collect (pu : PowerUp) (player : Player) : PowerUp × Player :=
  let player :=
    match pu.ptype with
    | .health =>
        { player with health := min player.maxHealth (player.health + pu.healAmount) }
    | .healthLarge =>
        { player with health := min player.maxHealth (player.health + pu.healAmount) }
    | .rocketAmmo =>
        let rl := player.rocketLauncher
        { player with rocketLauncher :=
            { rl with ammo := min rl.maxAmmo (rl.ammo + pu.ammoAmount) } }
    | .other => player
  ({ pu with active := false }, player)

/-! ## Wave manager (class `WaveManager`, main.js lines 2247-2398) -/

/-- Per-wave enemy-group definition from `WAVE_DEFINITIONS`
(`formation`/`type` only influence spawn positions and are irrelevant to the
completion logic, so they are not modelled here). -/
structure GroupDef where
  count : ℕ
  interval : ℚ
  deriving DecidableEq, Repr

/-- A wave definition: its enemy groups and its duration floor (ms). -/
structure WaveDef where
  enemies : List GroupDef
  duration : ℚ
  deriving DecidableEq, Repr

/-- Live spawn-tracking state of one enemy group
(initialised by `startWave` with `spawned: 0, lastSpawnTime: 0`). -/
structure EnemyGroup where
  count : ℕ
  interval : ℚ
  spawned : ℕ
  lastSpawnTime : ℚ
  deriving DecidableEq, Repr

/-- `WaveManager` state. -/
structure WaveManager where
  currentWaveIndex : ℕ
  waveStartTime : ℚ
  waveActive : Bool
  enemyGroups : List EnemyGroup
  breakDuration : ℚ
  inBreak : Bool
  breakStartTime : ℚ
  deriving DecidableEq, Repr

/-- `WaveManager.startWave()`: with the wave index past the definition list
it triggers the boss instead (wave state untouched); otherwise it marks the
wave active, stamps `waveStartTime` and initialises the group counters. -/
def WaveManager.startWave (wm : WaveManager) (defs : List WaveDef) (now : ℚ) :
    WaveManager :=
  match defs.get? wm.currentWaveIndex with
  | none => wm
  | some wave =>
      { wm with
        waveActive := true
        waveStartTime := now
        enemyGroups := wave.enemies.map (fun g =>
          { count := g.count, interval := g.interval, spawned := 0, lastSpawnTime := 0 }) }

/-- One tick of the per-group spawn logic inside `WaveManager.update`:
a group whose `spawned` has reached `count` is left alone, otherwise a unit
is spawned once `interval` has elapsed since `lastSpawnTime`. -/
def stepGroup (now : ℚ) (g : EnemyGroup) : EnemyGroup :=
  if g.spawned ≥ g.count then g
  else if now - g.lastSpawnTime ≥ g.interval then
    { g with spawned := g.spawned + 1, lastSpawnTime := now }
  else g

/-- `WaveManager.endWave()`: clears `waveActive`, sets `inBreak` and stamps
`breakStartTime` (the fresh `performance.now()` it reads is identified with
the `now` of the enclosing tick). -/
def WaveManager.endWave (wm : WaveManager) (now : ℚ) : WaveManager :=
  { wm with waveActive := false, inBreak := true, breakStartTime := now }

/-- `WaveManager.update(deltaTime)` at clock value `now = performance.now()`:
handles the inter-wave break, then — while a wave is active — runs the spawn
step for every group and transitions to the break via `endWave()` exactly
when every group is exhausted and the wave's elapsed time has reached its
duration.  (The source indexes `WAVE_DEFINITIONS[this.currentWaveIndex]`
unconditionally; an out-of-range index, impossible while a wave is active,
is modelled as a no-op.) -/
def WaveManager.update (wm : WaveManager) (defs : List WaveDef) (now : ℚ) :
    WaveManager :=
  if wm.inBreak then
    if now - wm.breakStartTime ≥ wm.breakDuration then
      WaveManager.startWave
        { wm with inBreak := false, currentWaveIndex := wm.currentWaveIndex + 1 }
        defs now
    else wm
  else if !wm.waveActive then wm
  else
    match defs.get? wm.currentWaveIndex with
    | none => wm
    | some wave =>
        let waveElapsed := now - wm.waveStartTime
        let groups := wm.enemyGroups.map (stepGroup now)
        let wm := { wm with enemyGroups := groups }
        if groups.all (fun g => decide (g.spawned ≥ g.count)) ∧ waveElapsed ≥ wave.duration then
          wm.endWave now
        else wm

/-! ## Circular collision (class `Entity`, main.js lines 447-475)

From here on the embedded code calls `Math.sqrt`, so numbers are modelled
as `ℝ`; branch conditions on reals use classical decidability. -/

open Classical

/-- Geometric fields of an `Entity` that `collidesWith` reads. -/
structure Entity where
  x : ℝ
  y : ℝ
  hitboxRadius : ℝ

/-- Spec-side notion: the Euclidean distance between two points (used to
state C6; the code-side `Entity.collidesWith` is defined below from the
source). -/
noncomputable def euclideanDistance (x1 y1 x2 y2 : ℝ) : ℝ :=
  Real.sqrt ((x1 - x2) ^ 2 + (y1 - y2) ^ 2)

/-- `Entity.collidesWith(other)`:
`distance = Math.sqrt(dx*dx + dy*dy); return distance < (this.hitboxRadius +
other.hitboxRadius)`. -/
def Entity.collidesWith (a b : Entity) : Prop :=
  Real.sqrt ((a.x - b.x) * (a.x - b.x) + (a.y - b.y) * (a.y - b.y)) <
    a.hitboxRadius + b.hitboxRadius

/-! ## The player-projectile collision pass
(`handleCollisions`, main.js lines 2404-2420) -/

/-- Projectile state read by the collision pass (and produced by
`Enemy.fire`): position, velocity, hitbox, damage, owner and active flag. -/
structure ProjectileR where
  x : ℝ
  y : ℝ
  vx : ℝ
  vy : ℝ
  hitboxRadius : ℝ
  damage : ℝ
  owner : Owner
  active : Bool

/-- Enemy state read/written by the collision pass: geometry, health, active
flag, and the `onDeath` instrumentation counter. -/
structure EnemyR where
  x : ℝ
  y : ℝ
  hitboxRadius : ℝ
  health : ℝ
  active : Bool
  onDeathCount : ℕ

/-- The `Entity` facet of a projectile (for `collidesWith`). -/
def ProjectileR.toEntity (p : ProjectileR) : Entity :=
  { x := p.x, y := p.y, hitboxRadius := p.hitboxRadius }

/-- The `Entity` facet of an enemy (for `collidesWith`). -/
def EnemyR.toEntity (e : EnemyR) : Entity :=
  { x := e.x, y := e.y, hitboxRadius := e.hitboxRadius }

/-- `Enemy.takeDamage` over `ℝ` (same code as the `ℚ` model above; needed
here because the collision pass damages enemies at `ℝ` positions). -/
noncomputable def EnemyR.takeDamage (e : EnemyR) (amount : ℝ) : EnemyR :=
  let h := e.health - amount
  if h ≤ 0 then
    { e with health := 0, onDeathCount := e.onDeathCount + 1, active := false }
  else { e with health := h }

/-- The inner `game.enemies.forEach` of the player-projectile block of
`handleCollisions`, for one projectile: each *active* enemy overlapping the
projectile gets an impact effect pushed at the projectile's position, takes
the projectile's damage, and the projectile is destroyed — note the source
re-checks `enemy.active` per enemy but never re-checks `projectile.active`
inside this loop.  Returns (projectile, enemies, impact-effect positions). -/
noncomputable def projectileEnemyLoop (p : ProjectileR) :
    List EnemyR → ProjectileR × List EnemyR × List (ℝ × ℝ)
  | [] => (p, [], [])
  | e :: es =>
    if e.active = true ∧ p.toEntity.collidesWith e.toEntity then
      let e' := e.takeDamage p.damage
      let p' := { p with active := false }
      let rest := projectileEnemyLoop p' es
      (rest.1, e' :: rest.2.1, (p.x, p.y) :: rest.2.2)
    else
      let rest := projectileEnemyLoop p es
      (rest.1, e :: rest.2.1, rest.2.2)

/-- One projectile's turn in the outer `game.projectiles.forEach`: inactive
or non-player-owned projectiles are skipped before the enemy loop runs. -/
noncomputable def handlePlayerProjectile (p : ProjectileR) (enemies : List EnemyR) :
    ProjectileR × List EnemyR × List (ℝ × ℝ) :=
  if p.active = false ∨ p.owner ≠ Owner.player then (p, enemies, [])
  else projectileEnemyLoop p enemies

/-! ## Homing rocket motion (class `Rocket`, main.js lines 649-728) -/

/-- `CONFIG.canvas.width` (initial value; the playfield is resized
dynamically at runtime, the constant is used for the off-screen margin). -/
def canvasWidth : ℝ := 800
/-- `CONFIG.canvas.height` (initial value). -/
def canvasHeight : ℝ := 600

/-- `Rocket` state: projectile fields plus the homing parameters set by the
constructor (`homingStrength = 0.3`, `acceleration = 100`,
`homingActivation = 0.2` s) and `age`. -/
structure Rocket where
  x : ℝ
  y : ℝ
  vx : ℝ
  vy : ℝ
  damage : ℝ
  hitboxRadius : ℝ
  age : ℝ
  homingStrength : ℝ
  acceleration : ℝ
  homingActivation : ℝ
  active : Bool

/-- A `Rocket` as constructed by `RocketLauncher.createProjectiles` at
`(x, y - 10)` (already offset): `speed: 400` upward. -/
noncomputable def rocketInit (x y : ℝ) : Rocket :=
  { x := x, y := y, vx := 0, vy := -400, damage := 50, hitboxRadius := 5,
    age := 0, homingStrength := 3/10, acceleration := 100,
    homingActivation := 1/5, active := true }

/-- The nearest-active-enemy scan inside `Rocket.update`: a fold over
`game.enemies` carrying the best (enemy, distance) pair, starting from
`nearestDist = Infinity` (modelled by `none`, which any active enemy
beats), keeping the earlier enemy on ties (strict `<`). -/
noncomputable def nearestActiveEnemy (x y : ℝ) (enemies : List EnemyR) :
    Option EnemyR :=
  (enemies.foldl
    (fun best e =>
      if e.active = true then
        let d := Real.sqrt ((e.x - x) * (e.x - x) + (e.y - y) * (e.y - y))
        match best with
        | none => some (e, d)
        | some be => if d < be.2 then some (e, d) else some be
      else best)
    none).map Prod.fst

/-- `Rocket.update(deltaTime)`: ages the rocket, computes
`newSpeed = currentSpeed + acceleration * deltaTime`; if the homing
activation delay has passed *and the enemies array is non-empty* it blends
velocity toward the nearest active enemy (doing nothing at all when no
active enemy is found or the distance is zero); otherwise it rescales the
velocity to `newSpeed` in the current direction (when nonzero); finally it
integrates position and self-destroys outside the off-screen margin. -/
noncomputable def Rocket.update (r : Rocket) (enemies : List EnemyR)
    (deltaTime : ℝ) : Rocket :=
  let age := r.age + deltaTime
  let currentSpeed := Real.sqrt (r.vx * r.vx + r.vy * r.vy)
  let newSpeed := currentSpeed + r.acceleration * deltaTime
  let r1 :=
    if age ≥ r.homingActivation ∧ enemies.length > 0 then
      match nearestActiveEnemy r.x r.y enemies with
      | some nearest =>
          let dx := nearest.x - r.x
          let dy := nearest.y - r.y
          let dist := Real.sqrt (dx * dx + dy * dy)
          if dist > 0 then
            let targetVx := dx / dist * newSpeed
            let targetVy := dy / dist * newSpeed
            { r with
              vx := r.vx + (targetVx - r.vx) * r.homingStrength
              vy := r.vy + (targetVy - r.vy) * r.homingStrength }
          else r
      | none => r
    else
      if currentSpeed > 0 then
        { r with
          vx := r.vx / currentSpeed * newSpeed
          vy := r.vy / currentSpeed * newSpeed }
      else r
  let r2 :=
    { r1 with
      age := age
      x := r1.x + r1.vx * deltaTime
      y := r1.y + r1.vy * deltaTime }
  if r2.y < -50 ∨ r2.y > canvasHeight + 50 ∨ r2.x < -50 ∨ r2.x > canvasWidth + 50 then
    { r2 with active := false }
  else r2

/-! ## Gunship burst fire (classes `Enemy`/`Gunship`, main.js lines
1506-1544 and 1678-1780) -/

/-- An enemy's `weapon` configuration record. -/
structure WeaponSpec where
  fireRate : ℝ
  projectileSpeed : ℝ
  damage : ℝ
  hitboxRadius : ℝ
  aimAtPlayer : Bool
  burstCount : ℕ
  burstDelay : ℝ

/-- The `Gunship` constructor's weapon: `fireRate: 1200`,
`projectileSpeed: 400`, `damage: 15`, `aimAtPlayer: true`, `burstCount: 3`,
`burstDelay: 150`.  The config has no `hitboxRadius`, so `Enemy.fire`'s
`this.weapon.hitboxRadius || 3` yields `3`, recorded here directly. -/
def gunshipWeapon : WeaponSpec :=
  { fireRate := 1200, projectileSpeed := 400, damage := 15, hitboxRadius := 3,
    aimAtPlayer := true, burstCount := 3, burstDelay := 150 }

/-- `Enemy.fire(currentTime)` for an enemy at `(ex, ey)` whose
`lastFireTime` is given: it first re-checks `Enemy.canFire`
(`currentTime - lastFireTime >= weapon.fireRate`), returning `[]` with the
state untouched on failure; on success it stamps `lastFireTime` and builds
one projectile at `(ex, ey + 10)` — aimed at the player when `aimAtPlayer`
and an active player exists (`player = some position`; no projectile at
all if the distance is zero), straight down otherwise.  Returns the new
`lastFireTime` and the projectile list. -/
noncomputable def enemyFire (w : WeaponSpec) (ex ey lastFireTime : ℝ)
    (player : Option (ℝ × ℝ)) (currentTime : ℝ) : ℝ × List ProjectileR :=
  if ¬ (currentTime - lastFireTime ≥ w.fireRate) then (lastFireTime, [])
  else
    match w.aimAtPlayer, player with
    | true, some pp =>
        let dx := pp.1 - ex
        let dy := pp.2 - ey
        let dist := Real.sqrt (dx * dx + dy * dy)
        if dist > 0 then
          (currentTime,
            [{ x := ex, y := ey + 10, vx := dx / dist * w.projectileSpeed,
               vy := dy / dist * w.projectileSpeed, hitboxRadius := w.hitboxRadius,
               damage := w.damage, owner := Owner.enemy, active := true }])
        else (currentTime, [])
    | _, _ =>
        (currentTime,
          [{ x := ex, y := ey + 10, vx := 0, vy := w.projectileSpeed,
             hitboxRadius := w.hitboxRadius, damage := w.damage,
             owner := Owner.enemy, active := true }])

/-- `Gunship` movement/burst constants from the constructor. -/
def gunshipDescendTo : ℝ := 150
/-- Drift limit in pixels. -/
def gunshipDriftAmount : ℝ := 20
/-- Drift speed in pixels per second. -/
def gunshipDriftSpeed : ℝ := 30
/-- Descent speed in pixels per second. -/
def gunshipBaseSpeed : ℝ := 60

/-- `Gunship` state mutated by its `update`. -/
structure Gunship where
  x : ℝ
  y : ℝ
  health : ℝ
  active : Bool
  lastFireTime : ℝ
  hovering : Bool
  driftDirection : ℝ
  driftDistance : ℝ
  burstShotsFired : ℕ
  lastBurstTime : ℝ

/-- A freshly spawned `Gunship`. -/
def gunshipInit (x y : ℝ) : Gunship :=
  { x := x, y := y, health := 30, active := true, lastFireTime := 0,
    hovering := false, driftDirection := 1, driftDistance := 0,
    burstShotsFired := 0, lastBurstTime := 0 }

/-- `Gunship.update(deltaTime)` at clock value `currentTime =
performance.now()`, with `player` the active player's position (if any):
descent until `descendTo` then hovering with triangle-wave drift; while
hovering, the burst sub-machine: a new burst starts when
`burstShotsFired === 0 && this.canFire(currentTime)`, which stamps
`lastFireTime`/`lastBurstTime`, sets `burstShotsFired = 1` **and then**
calls `this.fire(currentTime)` (which re-checks `canFire` against the
just-stamped `lastFireTime`); continuation shots fire after `burstDelay`;
the counter resets once `burstCount` shots are recorded.  Returns the new
state and the projectiles appended to `game.projectiles`. -/
noncomputable def Gunship.update (g : Gunship) (player : Option (ℝ × ℝ))
    (deltaTime currentTime : ℝ) : Gunship × List ProjectileR :=
  let g :=
    if g.hovering = false ∧ g.y < gunshipDescendTo then
      let y := g.y + gunshipBaseSpeed * deltaTime
      if y ≥ gunshipDescendTo then { g with y := y, hovering := true }
      else { g with y := y }
    else g
  let g :=
    if g.hovering = true then
      let drift := gunshipDriftSpeed * g.driftDirection * deltaTime
      let g := { g with x := g.x + drift, driftDistance := g.driftDistance + |drift| }
      if g.driftDistance ≥ gunshipDriftAmount then
        { g with driftDirection := -g.driftDirection, driftDistance := 0 }
      else g
    else g
  let gp :=
    if g.hovering = true then
      if g.burstShotsFired = 0 ∧ currentTime - g.lastFireTime ≥ gunshipWeapon.fireRate then
        let g :=
          { g with
            lastFireTime := currentTime
            lastBurstTime := currentTime
            burstShotsFired := 1 }
        let fired := enemyFire gunshipWeapon g.x g.y g.lastFireTime player currentTime
        ({ g with lastFireTime := fired.1 }, fired.2)
      else if 0 < g.burstShotsFired ∧ g.burstShotsFired < gunshipWeapon.burstCount then
        if currentTime - g.lastBurstTime ≥ gunshipWeapon.burstDelay then
          let g :=
            { g with
              lastBurstTime := currentTime
              burstShotsFired := g.burstShotsFired + 1 }
          let fired := enemyFire gunshipWeapon g.x g.y g.lastFireTime player currentTime
          ({ g with lastFireTime := fired.1 }, fired.2)
        else (g, [])
      else if g.burstShotsFired ≥ gunshipWeapon.burstCount then
        ({ g with burstShotsFired := 0 }, [])
      else (g, [])
    else (g, [])
  if gp.1.y > canvasHeight + 50 then ({ gp.1 with active := false }, gp.2) else gp

/-! ## Kamikaze chain-reaction deaths (class `Kamikaze`, main.js lines
1782-1886, together with `Enemy.takeDamage`) -/

/-- State of one kamikaze: position (never moved during death resolution),
health, active flag and the `onDeath` instrumentation counter (each
`Kamikaze.onDeath()` invocation pushes a small explosion and adds the score
value). -/
structure Kam where
  x : ℝ
  y : ℝ
  health : ℝ
  active : Bool
  onDeathCount : ℕ

/-- The population for the three-kamikaze scenario: `game.enemies` is the
array `[k0, k1, k2]`. -/
structure KamTrio where
  k0 : Kam
  k1 : Kam
  k2 : Kam

/-- Array indexing `game.enemies[i]` for the three-element population. -/
def KamTrio.get (s : KamTrio) : ℕ → Kam
  | 0 => s.k0
  | 1 => s.k1
  | _ => s.k2

/-- In-place mutation of `game.enemies[i]`. -/
def KamTrio.set (s : KamTrio) : ℕ → Kam → KamTrio
  | 0, k => { s with k0 := k }
  | 1, k => { s with k1 := k }
  | _, k => { s with k2 := k }

/-- `Kamikaze` constructor: `explosionDamage = 25`. -/
def kamExplosionDamage : ℝ := 25
/-- `Kamikaze` constructor: `explosionRadius = 40`. -/
def kamExplosionRadius : ℝ := 40

/-- `Enemy.takeDamage(amount)` on kamikaze `i`, with `Kamikaze.onDeath()`
inlined at its call site (the JS dispatches `this.onDeath()` to the
`Kamikaze` override).  On lethal damage the health is zeroed, then
`onDeath()` runs — incrementing the counter (explosion effect + score) and
iterating `game.enemies.forEach` over indices 0,1,2 in order, skipping
`enemy === this` and `!enemy.active`, recursively damaging every other
enemy within `explosionRadius` by `explosionDamage` — and only *after*
`onDeath()` returns does `this.destroy()` clear the active flag.  (The
player-damage branch of `onDeath` is skipped: the scenario has no active
player.)  The JS recursion is unbounded; `fuel` truncates it: when `fuel`
reaches 0 a pending call returns the state unchanged, so any fact about
counters already incremented at a given fuel also holds at every larger
fuel in the untruncated execution. -/
noncomputable def kamTakeDamage : ℕ → KamTrio → ℕ → ℝ → KamTrio
  | 0, s, _, _ => s
  | fuel + 1, s, i, amount =>
    let k := s.get i
    let h := k.health - amount
    if h ≤ 0 then
      let s := s.set i { k with health := 0 }
      let ki := s.get i
      let s := s.set i { ki with onDeathCount := ki.onDeathCount + 1 }
      let step := fun (s : KamTrio) (j : ℕ) =>
        if j = i ∨ (s.get j).active = false then s
        else
          let dx := (s.get j).x - (s.get i).x
          let dy := (s.get j).y - (s.get i).y
          if Real.sqrt (dx * dx + dy * dy) < kamExplosionRadius then
            kamTakeDamage fuel s j kamExplosionDamage
          else s
      let s := step (step (step s 0) 1) 2
      s.set i { s.get i with active := false }
    else s.set i { k with health := h }

/-! ## Concrete scenario states used by witnesses and counterexamples -/

/-- A rocket launcher down to its last round (after nine successful shots,
say), otherwise fresh. -/
def rocketAmmo1 : RocketLauncher :=
  { base := { fireRate := 500, lastFireTime := 0 }, ammo := 1, maxAmmo := 10 }

/-- A fresh enemy with 10 health (the `Scout` configuration). -/
def enemyFresh : Enemy :=
  { health := 10, maxHealth := 10, scoreValue := 100, active := true,
    onDeathCount := 0 }

/-- A player at spawn position. -/
def playerStart : Player := playerInit 400 500

/-- The player right after `respawn()`: full health, invulnerable with a
fresh timer. -/
def playerInvuln : Player :=
  { playerStart with invulnerable := true, invulnerabilityTimer := 0 }

/-- A player-owned projectile sitting exactly on top of the two enemies
below. -/
def projPierce : ProjectileR :=
  { x := 100, y := 100, vx := 0, vy := -900, hitboxRadius := 3, damage := 7,
    owner := Owner.player, active := true }

/-- First of two overlapping enemies. -/
def enemyOverlapA : EnemyR :=
  { x := 100, y := 100, hitboxRadius := 10, health := 100, active := true,
    onDeathCount := 0 }

/-- Second of two overlapping enemies. -/
def enemyOverlapB : EnemyR :=
  { x := 100, y := 100, hitboxRadius := 10, health := 100, active := true,
    onDeathCount := 0 }

/-- A just-launched rocket whose age is about to pass the homing activation
delay. -/
noncomputable def rocketPastDelay : Rocket :=
  { rocketInit 400 310 with age := 1/5 }

/-- An enemy that has already been destroyed but not yet pruned from
`game.enemies`. -/
def deadEnemy : EnemyR :=
  { x := 200, y := 200, hitboxRadius := 10, health := 0, active := false,
    onDeathCount := 1 }

/-- A gunship that has finished its descent and hovers with a fresh burst
state. -/
def hoveringGunship : Gunship :=
  { gunshipInit 400 150 with hovering := true }

/-- The active player's position for the gunship scenario. -/
def playerPos : Option (ℝ × ℝ) := some (400, 500)

/-- `hoveringGunship` after the update at t = 2000 that *starts* a burst:
`lastFireTime` and `lastBurstTime` stamped, one shot recorded. -/
def gunshipBurst1 : Gunship :=
  { x := 400, y := 150, health := 30, active := true, lastFireTime := 2000,
    hovering := true, driftDirection := 1, driftDistance := 0,
    burstShotsFired := 1, lastBurstTime := 2000 }

/-- After the continuation update at t = 2150 (second recorded shot). -/
def gunshipBurst2 : Gunship :=
  { gunshipBurst1 with burstShotsFired := 2, lastBurstTime := 2150 }

/-- After the continuation update at t = 2300 (third recorded shot). -/
def gunshipBurst3 : Gunship :=
  { gunshipBurst1 with burstShotsFired := 3, lastBurstTime := 2300 }

/-- After the reset update at t = 2316 (burst counter back to idle). -/
def gunshipBurst0 : Gunship :=
  { gunshipBurst1 with burstShotsFired := 0, lastBurstTime := 2300 }

/-- One kamikaze of the chain-reaction scenario (all three share a position,
so each is trivially inside every explosion radius). -/
def kamStart : Kam :=
  { x := 100, y := 100, health := 5, active := true, onDeathCount := 0 }

/-- Three overlapping kamikazes. -/
def kamScenario : KamTrio := { k0 := kamStart, k1 := kamStart, k2 := kamStart }

/-- A running wave with a single group of one enemy not yet spawned. -/
def waveScenario : WaveManager :=
  { currentWaveIndex := 0, waveStartTime := 0, waveActive := true,
    enemyGroups := [{ count := 1, interval := 1000, spawned := 0, lastSpawnTime := 0 }],
    breakDuration := 3000, inBreak := false, breakStartTime := 0 }

/-- The wave definition matching `waveScenario`: one group, 1500 ms duration
floor. -/
def waveDefsScenario : List WaveDef :=
  [{ enemies := [{ count := 1, interval := 1000 }], duration := 1500 }]

/-! ## C6 — collision symmetry and threshold -/

/-- C6 (confirmed): `Entity.collidesWith` is symmetric in its two entities
and reports a collision iff the Euclidean distance between the centers is
strictly less than the sum of the radii; with radii 8 and 8, a center
distance of 15.999 collides and a distance of 16.0 does not. -/
theorem C6_collidesWith_symmetric_threshold :
    (∀ a b : Entity, a.collidesWith b ↔ b.collidesWith a) ∧
    (∀ a b : Entity,
      a.collidesWith b ↔
        euclideanDistance a.x a.y b.x b.y < a.hitboxRadius + b.hitboxRadius) ∧
    Entity.collidesWith { x := 0, y := 0, hitboxRadius := 8 }
      { x := 15.999, y := 0, hitboxRadius := 8 } ∧
    ¬ Entity.collidesWith { x := 0, y := 0, hitboxRadius := 8 }
      { x := 16, y := 0, hitboxRadius := 8 } := by
  refine ⟨?_, ?_, ?_, ?_⟩
  · intro a b
    unfold Entity.collidesWith
    rw [show (a.x - b.x) * (a.x - b.x) + (a.y - b.y) * (a.y - b.y)
          = (b.x - a.x) * (b.x - a.x) + (b.y - a.y) * (b.y - a.y) from by ring,
        add_comm a.hitboxRadius]
  · intro a b
    unfold Entity.collidesWith euclideanDistance
    rw [show (a.x - b.x) * (a.x - b.x) + (a.y - b.y) * (a.y - b.y)
          = (a.x - b.x) ^ 2 + (a.y - b.y) ^ 2 from by ring]
  · unfold Entity.collidesWith
    rw [Real.sqrt_lt' (by norm_num)]
    norm_num
  · unfold Entity.collidesWith
    rw [Real.sqrt_lt' (by norm_num)]
    norm_num

/-! ## C5 — weapon fire-rate gating -/

/-- C5 (corrected), counterexample to the claim as stated: the rocket
launcher has fire-rate interval 500 ms; with one round left, a first
`fire` at t = 1000 produces a projectile, and a second `fire` at
t = 1600 — with Δ = 600 ≥ 500 — produces none, because the ammo pool is
exhausted.  The claim's closing biconditional (two `fire()` calls at t and
t+Δ produce a second projectile iff Δ ≥ T) therefore fails on the code. -/
theorem C5_counterexample_rocket_ammo :
    (rocketAmmo1.fire 0 0 1000).2.length = 1 ∧
    (1600 : ℚ) - 1000 ≥ rocketAmmo1.base.fireRate ∧
    ((rocketAmmo1.fire 0 0 1000).1.fire 0 0 1600).2 = [] := by
  have hf1 : rocketAmmo1.fire 0 0 1000 =
      ({ base := { fireRate := 500, lastFireTime := 1000 }, ammo := 0, maxAmmo := 10 },
        rocketCreateProjectiles 0 0) := by
    norm_num [RocketLauncher.fire, RocketLauncher.canFire, Weapon.canFire,
      rocketCreateProjectiles, rocketAmmo1]
  have h2 : ¬ RocketLauncher.canFire
      { base := { fireRate := 500, lastFireTime := 1000 }, ammo := 0, maxAmmo := 10 }
      1600 := by
    simp [RocketLauncher.canFire, Weapon.canFire]
  refine ⟨?_, ?_, ?_⟩
  · rw [hf1]
    simp [rocketCreateProjectiles]
  · norm_num [rocketAmmo1]
  · rw [hf1]
    simp [RocketLauncher.fire, h2]

/-- C5 (corrected, amended): `canFire(now)` is true iff
`now − lastFireTime ≥ fireRate` (plus `ammo > 0` for the rocket launcher);
a failed `fire` returns zero projectiles and changes nothing; a successful
`fire` stamps `lastFireTime = now`, returns exactly one projectile and (for
the rocket) decrements ammo by one; and — *provided the first call
succeeds, and for the rocket launcher at least one round remains after the
first shot* — two `fire()` calls at t and t+Δ produce a second projectile
iff Δ ≥ T. -/
theorem C5_amended_fire_rate_gating :
    (∀ (w : Weapon) (now : ℚ),
      w.canFire now ↔ now - w.lastFireTime ≥ w.fireRate) ∧
    (∀ (r : RocketLauncher) (now : ℚ),
      r.canFire now ↔
        (now - r.base.lastFireTime ≥ r.base.fireRate ∧ r.ammo > 0)) ∧
    (∀ (w : Weapon) (create : ℚ → ℚ → List Projectile) (x y now : ℚ),
      ¬ w.canFire now → w.fire create x y now = (w, [])) ∧
    (∀ (r : RocketLauncher) (x y now : ℚ),
      ¬ r.canFire now → r.fire x y now = (r, [])) ∧
    (∀ (w : Weapon) (x y now : ℚ), w.canFire now →
      (w.fire sniperCreateProjectiles x y now).1.lastFireTime = now ∧
      (w.fire sniperCreateProjectiles x y now).2.length = 1) ∧
    (∀ (w : Weapon) (rand x y now : ℚ), w.canFire now →
      (w.fire (vulcanCreateProjectiles rand) x y now).1.lastFireTime = now ∧
      (w.fire (vulcanCreateProjectiles rand) x y now).2.length = 1) ∧
    (∀ (r : RocketLauncher) (x y now : ℚ), r.canFire now →
      (r.fire x y now).1.base.lastFireTime = now ∧
      (r.fire x y now).1.ammo = r.ammo - 1 ∧
      (r.fire x y now).2.length = 1) ∧
    (∀ (w : Weapon) (create : ℚ → ℚ → List Projectile) (x y t d : ℚ),
      (∀ a b, (create a b).length = 1) → w.canFire t →
      ((((w.fire create x y t).1).fire create x y (t + d)).2 ≠ [] ↔
        d ≥ w.fireRate)) ∧
    (∀ (r : RocketLauncher) (x y t d : ℚ), r.canFire t → r.ammo ≥ 2 →
      ((((r.fire x y t).1).fire x y (t + d)).2 ≠ [] ↔ d ≥ r.base.fireRate)) := by
  refine ⟨?_, ?_, ?_, ?_, ?_, ?_, ?_, ?_, ?_⟩
  · intro w now
    exact Iff.rfl
  · intro r now
    exact Iff.rfl
  · intro w c x y now h
    simp [Weapon.fire, h]
  · intro r x y now h
    simp [RocketLauncher.fire, h]
  · intro w x y now h
    simp [Weapon.fire, h, sniperCreateProjectiles]
  · intro w rand x y now h
    simp [Weapon.fire, h, vulcanCreateProjectiles]
  · intro r x y now h
    simp [RocketLauncher.fire, h, rocketCreateProjectiles]
  · intro w c x y t d hc h
    have hstamp : (w.fire c x y t).1 = { w with lastFireTime := t } := by
      simp [Weapon.fire, h]
    rw [hstamp]
    have hsub : t + d - t = d := by ring
    by_cases hd : d ≥ w.fireRate
    · have h2 : Weapon.canFire { w with lastFireTime := t } (t + d) := by
        simpa [Weapon.canFire, hsub] using hd
      simp only [Weapon.fire, h2, not_true, if_false]
      have hlen := hc x y
      constructor
      · intro _
        exact hd
      · intro _ hnil
        rw [hnil] at hlen
        simp at hlen
    · have h2 : ¬ Weapon.canFire { w with lastFireTime := t } (t + d) := by
        simpa [Weapon.canFire, hsub] using hd
      simp [Weapon.fire, h2, hd]
  · intro r x y t d h hammo
    have hstamp : (r.fire x y t).1 =
        { r with base := { r.base with lastFireTime := t }, ammo := r.ammo - 1 } := by
      simp [RocketLauncher.fire, h, rocketCreateProjectiles]
    rw [hstamp]
    have hsub : t + d - t = d := by ring
    by_cases hd : d ≥ r.base.fireRate
    · have h2 : RocketLauncher.canFire
          { r with base := { r.base with lastFireTime := t }, ammo := r.ammo - 1 }
          (t + d) := by
        refine ⟨?_, ?_⟩
        · simpa [Weapon.canFire, hsub] using hd
        · simp only []
          omega
      simp [RocketLauncher.fire, h2, rocketCreateProjectiles, hd]
    · have h2 : ¬ RocketLauncher.canFire
          { r with base := { r.base with lastFireTime := t }, ammo := r.ammo - 1 }
          (t + d) := by
        intro hcf
        exact hd (by simpa [Weapon.canFire, hsub] using hcf.1)
      simp [RocketLauncher.fire, h2, hd]

/-- Witness for `C5_amended_fire_rate_gating`: the sniper laser
(interval 350 ms) fired at t = 1000 succeeds, and fired again at
t = 1000 + 350 produces a second projectile. -/
theorem C5_amended_witness :
    sniperLaser.canFire 1000 ∧
    (((sniperLaser.fire sniperCreateProjectiles 400 500 1000).1).fire
        sniperCreateProjectiles 400 500 (1000 + 350)).2 ≠ [] := by
  have h : sniperLaser.canFire 1000 := by
    norm_num [Weapon.canFire, sniperLaser]
  refine ⟨h, ?_⟩
  exact (C5_amended_fire_rate_gating.2.2.2.2.2.2.2.1 sniperLaser
      sniperCreateProjectiles 400 500 1000 350
      (fun _ _ => rfl) h).2 (by norm_num [sniperLaser])

/-! ## C4 — damage clamping and death-handler idempotence -/

/-- C4 (corrected), counterexample to the claim as stated: a lethal hit
(health 10, damage 10) clamps health to exactly 0, deactivates the enemy
and runs the death handler once — but `Enemy.takeDamage` has no guard
against dead entities, so a second call on the now-inactive, zero-health
enemy runs the death handler (score, explosion, drop roll) a second time,
contradicting "has no further effect". -/
theorem C4_counterexample_second_death :
    (enemyFresh.takeDamage 10).health = 0 ∧
    (enemyFresh.takeDamage 10).active = false ∧
    (enemyFresh.takeDamage 10).onDeathCount = 1 ∧
    ((enemyFresh.takeDamage 10).takeDamage 5).onDeathCount = 2 := by
  norm_num [Enemy.takeDamage, enemyFresh]

/-- C4 (corrected, amended): for both `Player` and `Enemy`, `takeDamage`
with amount ≥ current health sets health to exactly 0 — health is never
negative after any damage application — and invokes the death handler
exactly once in that call; however neither method short-circuits on an
already-dead entity, so a further `takeDamage` call with a non-negative
amount against the zero-health entity leaves health at 0 but invokes the
death handler again (decrementing the player's `lives` again). -/
theorem C4_amended_damage_clamp :
    (∀ (e : Enemy) (a : ℚ), a ≥ e.health →
      (e.takeDamage a).health = 0 ∧
      (e.takeDamage a).onDeathCount = e.onDeathCount + 1 ∧
      (e.takeDamage a).active = false) ∧
    (∀ (e : Enemy) (a : ℚ), (e.takeDamage a).health ≥ 0) ∧
    (∀ (p : Player) (a : ℚ), p.invulnerable = false → a ≥ p.health →
      (p.takeDamage a).health = 0 ∧
      (p.takeDamage a).dieCount = p.dieCount + 1 ∧
      (p.takeDamage a).lives = p.lives - 1) ∧
    (∀ (p : Player) (a : ℚ), p.invulnerable = false →
      (p.takeDamage a).health ≥ 0) ∧
    (∀ (e : Enemy) (a : ℚ), e.health = 0 → 0 ≤ a →
      (e.takeDamage a).onDeathCount = e.onDeathCount + 1 ∧
      (e.takeDamage a).health = 0) ∧
    (∀ (p : Player) (a : ℚ), p.invulnerable = false → p.health = 0 → 0 ≤ a →
      (p.takeDamage a).dieCount = p.dieCount + 1 ∧
      (p.takeDamage a).lives = p.lives - 1) := by
  have hdie : ∀ (p : Player), (Player.die p).dieCount = p.dieCount + 1 ∧
      (Player.die p).lives = p.lives - 1 ∧ (Player.die p).health = p.health := by
    intro p
    by_cases hl : p.lives - 1 > 0 <;> simp [Player.die, hl]
  refine ⟨?_, ?_, ?_, ?_, ?_, ?_⟩
  · intro e a h
    simp [Enemy.takeDamage, show e.health - a ≤ 0 by linarith]
  · intro e a
    by_cases hc : e.health - a ≤ 0 <;> simp [Enemy.takeDamage, hc]
    push_neg at hc
    linarith
  · intro p a hi h
    have hc : p.health - a ≤ 0 := by linarith
    simp only [Player.takeDamage, hi, Bool.false_eq_true, if_false, hc, if_true]
    refine ⟨by rw [(hdie _).2.2], by rw [(hdie _).1], by rw [(hdie _).2.1]⟩
  · intro p a hi
    by_cases hc : p.health - a ≤ 0 <;>
      simp only [Player.takeDamage, hi, Bool.false_eq_true, if_false, hc, if_true,
        if_false]
    · rw [(hdie _).2.2]
    · push_neg at hc
      linarith
  · intro e a h0 ha
    constructor <;> simp [Enemy.takeDamage, h0, show -a ≤ 0 by linarith]
  · intro p a hi h0 ha
    have hc : p.health - a ≤ 0 := by rw [h0]; linarith
    simp only [Player.takeDamage, hi, Bool.false_eq_true, if_false, hc, if_true]
    exact ⟨by rw [(hdie _).1], by rw [(hdie _).2.1]⟩

/-- Witness for `C4_amended_damage_clamp`: the fresh enemy killed by exactly
its health, and the fresh player killed by 150 damage. -/
theorem C4_amended_witness :
    (enemyFresh.takeDamage 10).health = 0 ∧
    (playerStart.takeDamage 150).health = 0 ∧
    (playerStart.takeDamage 150).lives = playerStart.lives - 1 := by
  refine ⟨(C4_amended_damage_clamp.1 enemyFresh 10 ?_).1,
    (C4_amended_damage_clamp.2.2.1 playerStart 150 rfl ?_).1,
    (C4_amended_damage_clamp.2.2.1 playerStart 150 rfl ?_).2.2⟩ <;>
    norm_num [enemyFresh, playerStart, playerInit]

/-! ## C7 — player invulnerability window -/

/-- C7 (confirmed): while invulnerable, `Player.takeDamage` is the identity
(health, lives and the active flag are all unchanged, for every amount);
after `Player.update dt` the window has ended exactly when the accumulated
timer `invulnerabilityTimer + dt·1000` has reached
`invulnerabilityDuration`; and once not invulnerable, damage applies
again (a non-lethal amount is subtracted from health in full). -/
theorem C7_invulnerability_window :
    (∀ (p : Player) (a : ℚ), p.invulnerable = true → p.takeDamage a = p) ∧
    (∀ (p : Player) (dt : ℚ), p.invulnerable = true →
      ((p.update dt).invulnerable = false ↔
        p.invulnerabilityTimer + dt * 1000 ≥ p.invulnerabilityDuration)) ∧
    (∀ (p : Player) (a : ℚ), p.invulnerable = false → 0 < a → a < p.health →
      (p.takeDamage a).health = p.health - a) := by
  refine ⟨?_, ?_, ?_⟩
  · intro p a h
    simp [Player.takeDamage, h]
  · intro p dt h
    by_cases hc : p.invulnerabilityTimer + dt * 1000 ≥ p.invulnerabilityDuration
    · have hinv : (p.update dt).invulnerable = false := by
        simp only [Player.update, h, if_true, hc]
        split <;> rfl
      simp [hinv, hc]
    · have hinv : (p.update dt).invulnerable = true := by
        simp only [Player.update, h, if_true, hc, if_false]
        split <;> rfl
      simp [hinv, hc]
  · intro p a hi h0 hlt
    simp [Player.takeDamage, hi, show ¬(p.health - a ≤ 0) by linarith]

/-- Witness for `C7_invulnerability_window`: the freshly respawned player
ignores a 40-damage hit entirely; a 3-second update ends the 3000 ms
window; and the non-invulnerable starting player loses exactly 30 health
from a 30-damage hit. -/
theorem C7_witness :
    playerInvuln.takeDamage 40 = playerInvuln ∧
    (playerInvuln.update 3).invulnerable = false ∧
    (playerStart.takeDamage 30).health = 70 := by
  refine ⟨C7_invulnerability_window.1 playerInvuln 40 rfl, ?_, ?_⟩
  · exact (C7_invulnerability_window.2.1 playerInvuln 3 rfl).2
      (by norm_num [playerInvuln, playerStart, playerInit])
  · have h := C7_invulnerability_window.2.2 playerStart 30 rfl (by norm_num)
      (by norm_num [playerStart, playerInit])
    rw [h]
    norm_num [playerStart, playerInit]

/-! ## C10 — power-up caps -/

/-- C10 (confirmed): collecting a health or large-health power-up never
raises the player's health above `maxHealth`; collecting a rocket-ammo
power-up never raises the launcher's ammo above `maxAmmo`; and in every
case (all four type tags) the power-up is deactivated by `collect`. -/
theorem C10_powerup_caps :
    (∀ (pu : PowerUp) (pl : Player), (pu.collect pl).1.active = false) ∧
    (∀ (pu : PowerUp) (pl : Player),
      pu.ptype = PowerUpType.health ∨ pu.ptype = PowerUpType.healthLarge →
      ((pu.collect pl).2).health ≤ pl.maxHealth) ∧
    (∀ (pu : PowerUp) (pl : Player), pu.ptype = PowerUpType.rocketAmmo →
      ((pu.collect pl).2).rocketLauncher.ammo ≤ pl.rocketLauncher.maxAmmo) := by
  refine ⟨?_, ?_, ?_⟩
  · intro pu pl
    simp [PowerUp.collect]
  · intro pu pl h
    rcases h with h | h <;> simp [PowerUp.collect, h]
  · intro pu pl h
    simp [PowerUp.collect, h]

/-- Witness for `C10_powerup_caps`: a small health pack and an ammo pack
collected by the starting player, plus deactivation of the health pack. -/
theorem C10_witness :
    ((powerUpInit 0 0 PowerUpType.health).collect playerStart).2.health ≤
      playerStart.maxHealth ∧
    ((powerUpInit 0 0 PowerUpType.rocketAmmo).collect playerStart).2.rocketLauncher.ammo ≤
      playerStart.rocketLauncher.maxAmmo ∧
    ((powerUpInit 0 0 PowerUpType.health).collect playerStart).1.active = false := by
  exact ⟨C10_powerup_caps.2.1 _ _ (Or.inl rfl), C10_powerup_caps.2.2 _ _ rfl,
    C10_powerup_caps.1 _ _⟩

/-! ## C8 — wave completion gating -/

/-- C8 (confirmed): from a state with the wave active and not in break,
`WaveManager.update` transitions to the break iff, after this tick's spawn
step, every group's spawned count has reached its target *and* the wave's
elapsed time has reached its declared duration; moreover afterwards
`waveActive` is exactly the negation of `inBreak` (the transition is
Active → Break, never anything else). -/
theorem C8_wave_completion_gating :
    ∀ (wm : WaveManager) (defs : List WaveDef) (wave : WaveDef) (now : ℚ),
      wm.waveActive = true → wm.inBreak = false →
      defs.get? wm.currentWaveIndex = some wave →
      (((wm.update defs now).inBreak = true) ↔
        ((wm.enemyGroups.map (stepGroup now)).all
            (fun g => decide (g.spawned ≥ g.count)) = true ∧
          now - wm.waveStartTime ≥ wave.duration)) ∧
      (wm.update defs now).waveActive = !(wm.update defs now).inBreak := by
  intro wm defs wave now hact hbr hsome
  by_cases hc : (wm.enemyGroups.map (stepGroup now)).all
      (fun g => decide (g.spawned ≥ g.count)) = true ∧
      now - wm.waveStartTime ≥ wave.duration <;>
    simp only [WaveManager.update, hbr, Bool.false_eq_true, if_false, hact,
      Bool.not_true, hsome, WaveManager.endWave, hc, if_true] <;>
    simp [hc, hbr, hact]

/-- Witness for `C8_wave_completion_gating`: the one-group scenario at
t = 2000 — the group's last unit spawns during this tick and
2000 ≥ 1500 = duration, so the wave transitions to its break. -/
theorem C8_witness :
    (waveScenario.update waveDefsScenario 2000).inBreak = true := by
  have h := C8_wave_completion_gating waveScenario waveDefsScenario
    { enemies := [{ count := 1, interval := 1000 }], duration := 1500 } 2000
    rfl rfl rfl
  refine h.1.2 ⟨?_, by norm_num [waveScenario]⟩
  norm_num [waveScenario, stepGroup]

/-! ## C3 — the player-projectile collision pass -/

/-- Deactivating a projectile does not change its `Entity` facet. -/
theorem toEntity_deactivate (p : ProjectileR) :
    ProjectileR.toEntity { p with active := false } = p.toEntity := rfl

/-- Deactivating a projectile does not change its damage. -/
theorem damage_deactivate (p : ProjectileR) :
    ({ p with active := false } : ProjectileR).damage = p.damage := rfl

/-- The enemy list produced by the inner collision loop: every active enemy
overlapping the projectile is damaged — the projectile's geometry and
damage are unaffected by its own deactivation, so later enemies in the same
pass are still hit. -/
theorem projectileEnemyLoop_enemies (es : List EnemyR) : ∀ (p : ProjectileR),
    (projectileEnemyLoop p es).2.1 =
      es.map (fun e =>
        if e.active = true ∧ p.toEntity.collidesWith e.toEntity
        then e.takeDamage p.damage else e) := by
  induction es with
  | nil => intro p; simp [projectileEnemyLoop]
  | cons e t ih =>
      intro p
      by_cases hc : e.active = true ∧ p.toEntity.collidesWith e.toEntity
      · simp only [projectileEnemyLoop, if_pos hc, List.map_cons, ih,
          toEntity_deactivate, damage_deactivate, List.cons.injEq, if_pos hc]
      · simp only [projectileEnemyLoop, if_neg hc, List.map_cons, ih,
          List.cons.injEq, if_neg hc]

/-- The projectile leaves the inner loop deactivated iff it entered
deactivated or hit at least one active overlapping enemy. -/
theorem projectileEnemyLoop_projectile (es : List EnemyR) : ∀ (p : ProjectileR),
    ((projectileEnemyLoop p es).1.active = false ↔
      (p.active = false ∨
        ∃ e ∈ es, e.active = true ∧ p.toEntity.collidesWith e.toEntity)) := by
  induction es with
  | nil => intro p; simp [projectileEnemyLoop]
  | cons e t ih =>
      intro p
      by_cases hc : e.active = true ∧ p.toEntity.collidesWith e.toEntity
      · simp only [projectileEnemyLoop, if_pos hc]
        simp [ih, toEntity_deactivate, hc]
      · simp only [projectileEnemyLoop, if_neg hc]
        simp only [ih, List.exists_mem_cons_iff, hc, false_or]

/-- Every impact effect spawned in the inner loop sits at the projectile's
position. -/
theorem projectileEnemyLoop_effects (es : List EnemyR) : ∀ (p : ProjectileR),
    ∀ q ∈ (projectileEnemyLoop p es).2.2, q = (p.x, p.y) := by
  induction es with
  | nil => intro p q hq; simp [projectileEnemyLoop] at hq
  | cons e t ih =>
      intro p q hq
      by_cases hc : e.active = true ∧ p.toEntity.collidesWith e.toEntity
      · simp only [projectileEnemyLoop, if_pos hc, List.mem_cons] at hq
        rcases hq with hq | hq
        · exact hq
        · exact ih { p with active := false } q hq
      · simp only [projectileEnemyLoop, if_neg hc] at hq
        exact ih p q hq

/-- C3 (corrected), counterexample to the claim as stated: a single active
player projectile overlapping two active enemies damages *both* of them in
the same collision pass (health 100 → 93 each with damage 7): the source
destroys the projectile on the first hit but never re-checks
`projectile.active` inside the enemy loop, so the projectile is not
single-target. -/
theorem C3_counterexample_piercing :
    ((handlePlayerProjectile projPierce [enemyOverlapA, enemyOverlapB]).2.1.map
        EnemyR.health) = [93, 93] ∧
    enemyOverlapA.health = 100 ∧ enemyOverlapB.health = 100 := by
  have hcA : enemyOverlapA.active = true ∧
      projPierce.toEntity.collidesWith enemyOverlapA.toEntity := by
    refine ⟨rfl, ?_⟩
    unfold Entity.collidesWith ProjectileR.toEntity EnemyR.toEntity projPierce
      enemyOverlapA
    norm_num [Real.sqrt_zero]
  have hcB : enemyOverlapB.active = true ∧
      projPierce.toEntity.collidesWith enemyOverlapB.toEntity := by
    refine ⟨rfl, ?_⟩
    unfold Entity.collidesWith ProjectileR.toEntity EnemyR.toEntity projPierce
      enemyOverlapB
    norm_num [Real.sqrt_zero]
  have hguard : handlePlayerProjectile projPierce [enemyOverlapA, enemyOverlapB] =
      projectileEnemyLoop projPierce [enemyOverlapA, enemyOverlapB] := by
    simp [handlePlayerProjectile, projPierce]
  rw [hguard, projectileEnemyLoop_enemies]
  refine ⟨?_, rfl, rfl⟩
  simp only [List.map_cons, List.map_nil, if_pos hcA, if_pos hcB]
  norm_num [EnemyR.takeDamage, enemyOverlapA, enemyOverlapB, projPierce]

/-- C3 (corrected, amended): in the per-frame collision pass, an active
player-owned projectile spawns an impact effect at the projectile's
position and applies its damage for *every* active enemy it overlaps in
that pass — the projectile's active flag is cleared on the first hit but
not re-checked inside the loop, so it pierces all enemies it overlaps that
frame — and the projectile ends the pass deactivated iff it hit at least
one enemy. -/
theorem C3_amended_projectile_hits_all_overlapping :
    ∀ (p : ProjectileR) (es : List EnemyR),
      p.active = true → p.owner = Owner.player →
      (handlePlayerProjectile p es).2.1 =
        es.map (fun e =>
          if e.active = true ∧ p.toEntity.collidesWith e.toEntity
          then e.takeDamage p.damage else e) ∧
      ((handlePlayerProjectile p es).1.active = false ↔
        ∃ e ∈ es, e.active = true ∧ p.toEntity.collidesWith e.toEntity) ∧
      (∀ q ∈ (handlePlayerProjectile p es).2.2, q = (p.x, p.y)) := by
  intro p es hact howner
  have hguard : handlePlayerProjectile p es = projectileEnemyLoop p es := by
    simp [handlePlayerProjectile, hact, howner]
  rw [hguard]
  refine ⟨projectileEnemyLoop_enemies es p, ?_, projectileEnemyLoop_effects es p⟩
  rw [projectileEnemyLoop_projectile es p, hact]
  simp

/-- Witness for `C3_amended_projectile_hits_all_overlapping`: the
overlapping projectile against a single enemy — the enemy is damaged and
the projectile is deactivated. -/
theorem C3_amended_witness :
    (handlePlayerProjectile projPierce [enemyOverlapA]).2.1 =
      [enemyOverlapA.takeDamage projPierce.damage] ∧
    (handlePlayerProjectile projPierce [enemyOverlapA]).1.active = false := by
  have hcA : enemyOverlapA.active = true ∧
      projPierce.toEntity.collidesWith enemyOverlapA.toEntity := by
    refine ⟨rfl, ?_⟩
    unfold Entity.collidesWith ProjectileR.toEntity EnemyR.toEntity projPierce
      enemyOverlapA
    norm_num [Real.sqrt_zero]
  have h := C3_amended_projectile_hits_all_overlapping projPierce [enemyOverlapA]
    rfl rfl
  constructor
  · rw [h.1]
    simp [if_pos hcA]
  · exact h.2.1.2 ⟨enemyOverlapA, by simp, hcA⟩

/-! ## C9 — rocket behaviour with no active enemies -/

/-- The nearest-enemy scan of `Rocket.update` skips inactive enemies, so a
list with no active member yields no target. -/
theorem nearestActiveEnemy_all_inactive (x y : ℝ) :
    ∀ (es : List EnemyR), (∀ e ∈ es, e.active = false) →
      nearestActiveEnemy x y es = none := by
  intro es
  induction es with
  | nil => intro _; rfl
  | cons e t ih =>
      intro h
      have he : e.active = false := h e (by simp)
      have ht : ∀ e' ∈ t, e'.active = false := fun e' hm => h e' (by simp [hm])
      unfold nearestActiveEnemy at ih ⊢
      simp only [List.foldl_cons, he, Bool.false_eq_true, if_false]
      exact ih ht

/-- With an *empty* enemies array, `Rocket.update` rescales the velocity to
`currentSpeed + acceleration·dt` along the unchanged direction. -/
theorem rocket_update_empty_velocity (r : Rocket) (dt : ℝ)
    (hs : 0 < Real.sqrt (r.vx * r.vx + r.vy * r.vy)) :
    (r.update [] dt).vx = r.vx / Real.sqrt (r.vx * r.vx + r.vy * r.vy) *
        (Real.sqrt (r.vx * r.vx + r.vy * r.vy) + r.acceleration * dt) ∧
    (r.update [] dt).vy = r.vy / Real.sqrt (r.vx * r.vx + r.vy * r.vy) *
        (Real.sqrt (r.vx * r.vx + r.vy * r.vy) + r.acceleration * dt) := by
  simp only [Rocket.update, List.length_nil, gt_iff_lt, lt_self_iff_false,
    and_false, if_false, hs, if_true]
  constructor <;> split <;> rfl

/-- With a *non-empty* enemies array none of whose members is active,
`Rocket.update` past the homing delay leaves the velocity untouched: the
homing branch is entered, finds no target, and never reaches the
straight-line acceleration code. -/
theorem rocket_update_all_inactive (r : Rocket) (es : List EnemyR) (dt : ℝ)
    (hne : es ≠ []) (hinact : ∀ e ∈ es, e.active = false)
    (hage : r.age + dt ≥ r.homingActivation) :
    (r.update es dt).vx = r.vx ∧ (r.update es dt).vy = r.vy := by
  have hlen : es.length > 0 := List.length_pos.2 hne
  simp only [Rocket.update, ge_iff_le, hage, hlen, and_true, if_true, if_pos,
    nearestActiveEnemy_all_inactive r.x r.y es hinact]
  constructor <;> split <;> rfl

/-- C9 (corrected), counterexample to the claim as stated: a rocket past its
homing activation delay whose `game.enemies` array contains one (inactive,
not yet pruned) enemy — so *no enemies are active* — does **not** continue
straight-line acceleration: its velocity (and hence speed) is completely
unchanged by the update, instead of growing by `acceleration·dt`. -/
theorem C9_counterexample_inactive_list :
    rocketPastDelay.age + 1 / 10 ≥ rocketPastDelay.homingActivation ∧
    (∀ e ∈ [deadEnemy], e.active = false) ∧
    (rocketPastDelay.update [deadEnemy] (1 / 10)).vx = rocketPastDelay.vx ∧
    (rocketPastDelay.update [deadEnemy] (1 / 10)).vy = rocketPastDelay.vy ∧
    Real.sqrt ((rocketPastDelay.update [deadEnemy] (1 / 10)).vx *
        (rocketPastDelay.update [deadEnemy] (1 / 10)).vx +
        (rocketPastDelay.update [deadEnemy] (1 / 10)).vy *
        (rocketPastDelay.update [deadEnemy] (1 / 10)).vy) ≠
      Real.sqrt (rocketPastDelay.vx * rocketPastDelay.vx +
        rocketPastDelay.vy * rocketPastDelay.vy) +
        rocketPastDelay.acceleration * (1 / 10) := by
  have hage : rocketPastDelay.age + 1 / 10 ≥ rocketPastDelay.homingActivation := by
    norm_num [rocketPastDelay, rocketInit]
  have hinact : ∀ e ∈ [deadEnemy], e.active = false := by
    intro e he
    simp only [List.mem_singleton] at he
    rw [he]
    rfl
  have hv := rocket_update_all_inactive rocketPastDelay [deadEnemy] (1 / 10)
    (by simp) hinact hage
  refine ⟨hage, hinact, hv.1, hv.2, ?_⟩
  rw [hv.1, hv.2]
  have hs : Real.sqrt (rocketPastDelay.vx * rocketPastDelay.vx +
      rocketPastDelay.vy * rocketPastDelay.vy) = 400 := by
    have : rocketPastDelay.vx * rocketPastDelay.vx +
        rocketPastDelay.vy * rocketPastDelay.vy = 400 ^ 2 := by
      norm_num [rocketPastDelay, rocketInit]
    rw [this, Real.sqrt_sq (by norm_num)]
  rw [hs]
  norm_num [rocketPastDelay, rocketInit]

/-- C9 (corrected, amended): past the homing activation delay, if the
enemies *array is empty* the rocket continues straight-line acceleration —
its speed grows by exactly `acceleration·dt` and its velocity stays a
positive multiple of the previous velocity; but if the array is non-empty
while no enemy in it is active, the update leaves the velocity (speed and
direction) entirely unchanged. -/
theorem C9_amended_straight_line :
    (∀ (r : Rocket) (dt : ℝ), 0 ≤ dt → 0 ≤ r.acceleration →
      r.age + dt ≥ r.homingActivation →
      0 < Real.sqrt (r.vx * r.vx + r.vy * r.vy) →
      Real.sqrt ((r.update [] dt).vx * (r.update [] dt).vx +
          (r.update [] dt).vy * (r.update [] dt).vy) =
        Real.sqrt (r.vx * r.vx + r.vy * r.vy) + r.acceleration * dt ∧
      ∃ c : ℝ, 0 < c ∧ (r.update [] dt).vx = c * r.vx ∧
        (r.update [] dt).vy = c * r.vy) ∧
    (∀ (r : Rocket) (es : List EnemyR) (dt : ℝ), es ≠ [] →
      (∀ e ∈ es, e.active = false) → r.age + dt ≥ r.homingActivation →
      (r.update es dt).vx = r.vx ∧ (r.update es dt).vy = r.vy) := by
  constructor
  · intro r dt hdt hacc hage hs
    obtain ⟨hvx, hvy⟩ := rocket_update_empty_velocity r dt hs
    set s := Real.sqrt (r.vx * r.vx + r.vy * r.vy) with hsdef
    have hsne : s ≠ 0 := ne_of_gt hs
    have had : 0 ≤ r.acceleration * dt := mul_nonneg hacc hdt
    have hn : 0 ≤ s + r.acceleration * dt := by linarith
    constructor
    · rw [hvx, hvy]
      have key : (r.vx / s * (s + r.acceleration * dt)) *
            (r.vx / s * (s + r.acceleration * dt)) +
          (r.vy / s * (s + r.acceleration * dt)) *
            (r.vy / s * (s + r.acceleration * dt)) =
          ((s + r.acceleration * dt) / s) ^ 2 * (r.vx * r.vx + r.vy * r.vy) := by
        ring
      rw [key, Real.sqrt_mul (sq_nonneg _), Real.sqrt_sq_eq_abs,
        abs_of_nonneg (div_nonneg hn (le_of_lt hs)), ← hsdef,
        div_mul_cancel₀ _ hsne]
    · refine ⟨(s + r.acceleration * dt) / s, div_pos (by linarith) hs, ?_, ?_⟩
      · rw [hvx]
        ring
      · rw [hvy]
        ring
  · exact rocket_update_all_inactive

/-- Witness for `C9_amended_straight_line`: the concrete rocket with an
empty enemies array gains 100·0.1 = 10 speed, and with the dead enemy in
the array its horizontal velocity is unchanged. -/
theorem C9_amended_witness :
    Real.sqrt ((rocketPastDelay.update [] (1 / 10)).vx *
        (rocketPastDelay.update [] (1 / 10)).vx +
        (rocketPastDelay.update [] (1 / 10)).vy *
        (rocketPastDelay.update [] (1 / 10)).vy) =
      Real.sqrt (rocketPastDelay.vx * rocketPastDelay.vx +
        rocketPastDelay.vy * rocketPastDelay.vy) +
        rocketPastDelay.acceleration * (1 / 10) ∧
    (rocketPastDelay.update [deadEnemy] (1 / 10)).vx = rocketPastDelay.vx := by
  constructor
  · exact (C9_amended_straight_line.1 rocketPastDelay (1 / 10) (by norm_num)
      (by norm_num [rocketPastDelay, rocketInit])
      (by norm_num [rocketPastDelay, rocketInit])
      (Real.sqrt_pos.2 (by norm_num [rocketPastDelay, rocketInit]))).1
  · refine (C9_amended_straight_line.2 rocketPastDelay [deadEnemy] (1 / 10)
      (by simp) ?_ (by norm_num [rocketPastDelay, rocketInit])).1
    intro e he
    simp only [List.mem_singleton] at he
    rw [he]
    rfl

/-! ## C1 — gunship burst fire -/

/-- C1 (code bug): a hovering gunship with a ready fire-rate timer runs a
complete burst cycle — the counter steps 1, 2, 3 over the updates at
t = 2000, 2150, 2300 and resets at t = 2316 — yet **every one of the four
updates appends the empty projectile list**: the burst-start branch stamps
`this.lastFireTime = currentTime` *before* calling `this.fire(currentTime)`,
whose re-check `currentTime - lastFireTime >= 1200` is then `0 >= 1200` and
fails, and each continuation shot 150 ms later fails the same re-check
(150 < 1200).  The spec's burst of N = 3 aimed shots never appears: the
gunship fires nothing. -/
theorem C1_gunship_burst_fires_nothing :
    Gunship.update hoveringGunship playerPos 0 2000 = (gunshipBurst1, []) ∧
    Gunship.update gunshipBurst1 playerPos 0 2150 = (gunshipBurst2, []) ∧
    Gunship.update gunshipBurst2 playerPos 0 2300 = (gunshipBurst3, []) ∧
    Gunship.update gunshipBurst3 playerPos 0 2316 = (gunshipBurst0, []) ∧
    gunshipBurst3.burstShotsFired = gunshipWeapon.burstCount := by
  refine ⟨?_, ?_, ?_, ?_, rfl⟩ <;>
    norm_num [Gunship.update, hoveringGunship, gunshipInit, gunshipBurst1,
      gunshipBurst2, gunshipBurst3, gunshipBurst0, gunshipWeapon,
      gunshipDescendTo, gunshipDriftAmount, gunshipDriftSpeed, gunshipBaseSpeed,
      enemyFire, canvasHeight, playerPos, Gunship.mk.injEq, Prod.ext_iff,
      abs_zero]

/-! ## C2 — kamikaze chain reaction -/

set_option maxHeartbeats 2000000 in
/-- C2 (code bug): three kamikazes within each other's explosion radius,
one killed by a 50-damage hit.  Because `Enemy.takeDamage` calls
`this.onDeath()` *before* `this.destroy()` and has no guard against
already-dead enemies, the dying neighbours re-enter each other's
`takeDamage` while their `active` flags are still set.  Evaluating the
death resolution truncated at recursion depth 6, kamikaze 0's death
handling (explosion effect + score) has already run **three** times and
kamikaze 1's three times (at depth 8 four times each, at depth 20 ten
times each: in the untruncated JS execution the mutual
`takeDamage`/`onDeath` recursion never terminates, each level re-damaging
a neighbour whose `destroy()` is still pending on the stack).  The claimed
"death handling invoked exactly once for each of the three" is violated. -/
theorem C2_kamikaze_chain_double_death :
    (kamTakeDamage 6 kamScenario 0 50).k0.onDeathCount = 3 ∧
    (kamTakeDamage 6 kamScenario 0 50).k1.onDeathCount = 3 ∧
    (kamTakeDamage 6 kamScenario 0 50).k2.onDeathCount = 1 ∧
    (kamTakeDamage 6 kamScenario 0 50).k0.active = false ∧
    (kamTakeDamage 6 kamScenario 0 50).k1.active = false ∧
    (kamTakeDamage 6 kamScenario 0 50).k2.active = false := by
  norm_num [kamTakeDamage, KamTrio.get, KamTrio.set, kamScenario, kamStart,
    kamExplosionDamage, kamExplosionRadius, Real.sqrt_zero]

end AsciiShooter
